import Mathlib

/-!
Shallow embedding of the alpaca trading bot decision logic.

The repository has two near-duplicate scripts:
- upro_trading.py: trades UPRO, a LONG 3x leveraged instrument;
- intraday_monitor.py: trades SPXS, an INVERSE 3x leveraged instrument.

Prices are modelled as rational numbers.  Each network fetch that the
Python code performs is modelled as a field of an environment record
holding the value the fetch returned (with None modelled as Option.none).
Python truthiness on optional numbers (None and 0 are falsy) is modelled
by the helper truthy.  The per-cycle decision functions main mirror the
control flow of the corresponding Python main functions; each call to
place_market_order is modelled by appending an Order to the result list,
tagged with the code branch (stop loss, end-of-day close, entry) that
issued it.  The UPRO script keeps a process-lifetime dictionary
highest_price keyed by the (single) symbol; it is modelled as an
Option value threaded through main.
-/

/-- Market clock data, as the code uses it: the is_open flag of the
clock response, and the number of minutes elapsed since the session
open time that the code derives from the clock (lines 216-217 of
upro_trading.py, lines 204-205 of intraday_monitor.py). -/
structure ClockInfo where
  is_open : Bool
  minutesSinceOpen : ℚ
deriving DecidableEq, Repr

/-- An open broker position, with the fields the scripts read. -/
structure Position where
  qty : ℚ
  avg_entry_price : ℚ
  current_price : ℚ
deriving DecidableEq, Repr

inductive Side where
  | buy
  | sell
deriving DecidableEq, Repr

/-- The code branch that issued a market order: the stop-loss trigger,
the end-of-day close at 20:58, or the entry condition. -/
inductive OrderReason where
  | stopLoss
  | eodClose
  | entry
deriving DecidableEq, Repr

/-- One call to place_market_order. -/
structure Order where
  side : Side
  qty : ℚ
  reason : OrderReason
deriving DecidableEq, Repr

/-- Python truthiness of an optional number: None and 0 are falsy. -/
def truthy : Option ℚ → Bool
  | none => false
  | some x => x != 0

namespace UproTrading

/-- Fields of sp500_stop_config.json that upro_trading.py reads.
none models a missing key or a JSON null. -/
structure Config where
  upro_trading_enabled : Bool
  sp500_stop_price : Option ℚ
  trailing_stop_percent : Option ℚ
deriving DecidableEq, Repr

/-- QUANTITY constant of upro_trading.py. -/
def QUANTITY : ℚ := 5

/-- Validation of the trailing percent (upro_trading.py lines 266-270):
config.get with default 3.0, then replace None, nonpositive and
greater-than-3 values by 3.0. -/
def validate_trailing : Option ℚ → ℚ
  | none => 3
  | some x => if x ≤ 0 ∨ x > 3 then 3 else x

/-- calculate_dynamic_stop of upro_trading.py (lines 123-173).
When both benchmark inputs are truthy it converts the SP500 index stop
to a SPY equivalent (index / 10), takes the percent move from the SPY
open, and applies that percent to the entry price; otherwise it falls
back to entry_price * (1 - trailing_percent / 100). -/
def calculate_dynamic_stop (sp500_index_stop spy_open : Option ℚ)
    (upro_entry_price trailing_percent : ℚ) : ℚ :=
  if truthy sp500_index_stop && truthy spy_open then
    let s := sp500_index_stop.getD 0
    let o := spy_open.getD 0
    upro_entry_price * (1 + ((s / 10 - o) / o * 100) / 100)
  else
    upro_entry_price * (1 - trailing_percent / 100)

/-- check_entry_conditions of upro_trading.py (lines 175-231), with the
fetched data passed in: the bar giving today's open (none when the bars
request fails or returns no bars), the latest trade price (none when
the request fails; a price of 0 is falsy in the code), and the market
clock fetched inside the function.  The gate blocks only when
gap_pct > 1 (not the absolute value), the clock is present with
is_open, and fewer than 15 minutes have elapsed. -/
def check_entry_conditions (today_open_bar : Option ℚ) (prev_close : ℚ)
    (latest_trade : Option ℚ) (clock : Option ClockInfo) : Bool × Option ℚ :=
  match today_open_bar with
  | none => (false, none)
  | some today_open =>
    match latest_trade with
    | none => (false, none)
    | some current_price =>
      if current_price = 0 then (false, none)
      else
        let gap_pct := (today_open - prev_close) / prev_close * 100
        let gateBlocks : Bool :=
          decide (gap_pct > 1) &&
            (match clock with
             | some c => c.is_open && decide (c.minutesSinceOpen < 15)
             | none => false)
        if gateBlocks then (false, none)
        else if current_price ≥ prev_close then (true, some current_price)
        else (false, none)

/-- One invocation of upro_trading.py main, with every fetched value
supplied by the environment.  order_accepted is the broker response to
place_market_order; the Python main ignores that return value. -/
structure Env where
  hasCredentials : Bool
  clock : Option ClockInfo
  config : Option Config
  prev_close : Option ℚ
  spy_open : Option ℚ
  position : Option Position
  entry_today_open : Option ℚ
  entry_latest_trade : Option ℚ
  entry_clock : Option ClockInfo
  now_hour : ℕ
  now_minute : ℕ
  order_accepted : Bool
deriving DecidableEq, Repr

/-- main of upro_trading.py (lines 236-368) on one cycle: takes the
current highest_price entry for the symbol (none when absent) and
returns the orders placed and the new highest_price entry. -/
def main (env : Env) (highest_price : Option ℚ) : List Order × Option ℚ :=
  if !env.hasCredentials then ([], highest_price)
  else
    match env.clock with
    | none => ([], highest_price)
    | some clock =>
      if !clock.is_open then ([], highest_price)
      else
        match env.config with
        | none => ([], highest_price)
        | some config =>
          let trailing_percent := validate_trailing config.trailing_stop_percent
          if !truthy env.prev_close then ([], highest_price)
          else
            let prev_close := env.prev_close.getD 0
            match env.position with
            | some position =>
              let current_price := position.current_price
              let h0 := highest_price.getD current_price
              let h1 := if current_price > h0 then current_price else h0
              let initial_stop := calculate_dynamic_stop config.sp500_stop_price
                env.spy_open position.avg_entry_price trailing_percent
              let trailing_stop := h1 * (1 - trailing_percent / 100)
              let final_stop := max initial_stop trailing_stop
              if current_price ≤ final_stop then
                ([⟨Side.sell, position.qty, OrderReason.stopLoss⟩], none)
              else if env.now_hour = 20 ∧ 58 ≤ env.now_minute then
                ([⟨Side.sell, position.qty, OrderReason.eodClose⟩], none)
              else
                ([], some h1)
            | none =>
              if !config.upro_trading_enabled then ([], highest_price)
              else
                let r := check_entry_conditions env.entry_today_open prev_close
                  env.entry_latest_trade env.entry_clock
                if r.1 then ([⟨Side.buy, QUANTITY, OrderReason.entry⟩], highest_price)
                else ([], highest_price)

end UproTrading

namespace IntradayMonitor

/-- Fields of spxs_config.json that intraday_monitor.py reads. -/
structure Config where
  spxs_trading_enabled : Bool
  sp500_stop_price : Option ℚ
deriving DecidableEq, Repr

/-- QUANTITY constant of intraday_monitor.py. -/
def QUANTITY : ℚ := 5

/-- calculate_dynamic_stop of intraday_monitor.py (lines 122-161).
Returns none when either benchmark input is falsy; otherwise the SPXS
stop is entry * (1 + |percent move of SPY stop from SPY open| / 100),
the absolute value flipping the trigger direction for the inverse
instrument. -/
def calculate_dynamic_stop (sp500_index_stop spy_open : Option ℚ)
    (spxs_entry_price : ℚ) : Option ℚ :=
  if truthy sp500_index_stop && truthy spy_open then
    let s := sp500_index_stop.getD 0
    let o := spy_open.getD 0
    some (spxs_entry_price * (1 + |(s / 10 - o) / o * 100| / 100))
  else none

/-- check_entry_conditions of intraday_monitor.py (lines 163-219).
Unlike the UPRO version, the gate tests the absolute gap
|gap_pct| > 1, and entry requires current_price ≤ prev_close. -/
def check_entry_conditions (today_open_bar : Option ℚ) (prev_close : ℚ)
    (latest_trade : Option ℚ) (clock : Option ClockInfo) : Bool × Option ℚ :=
  match today_open_bar with
  | none => (false, none)
  | some today_open =>
    match latest_trade with
    | none => (false, none)
    | some current_price =>
      if current_price = 0 then (false, none)
      else
        let gap_pct := (today_open - prev_close) / prev_close * 100
        let gateBlocks : Bool :=
          decide (|gap_pct| > 1) &&
            (match clock with
             | some c => c.is_open && decide (c.minutesSinceOpen < 15)
             | none => false)
        if gateBlocks then (false, none)
        else if current_price ≤ prev_close then (true, some current_price)
        else (false, none)

/-- One invocation of intraday_monitor.py main, with every fetched
value supplied by the environment.  This script keeps no highest-price
state. -/
structure Env where
  hasCredentials : Bool
  clock : Option ClockInfo
  config : Option Config
  prev_close : Option ℚ
  spy_open : Option ℚ
  position : Option Position
  entry_today_open : Option ℚ
  entry_latest_trade : Option ℚ
  entry_clock : Option ClockInfo
  now_hour : ℕ
  now_minute : ℕ
  order_accepted : Bool
deriving DecidableEq, Repr

/-- main of intraday_monitor.py (lines 221-322) on one cycle: returns
the orders placed.  The dynamic stop branch runs only when both
benchmark inputs are truthy, and its sell returns early; otherwise the
end-of-day check at hour 20, minute at least 58 runs. -/
def main (env : Env) : List Order :=
  if !env.hasCredentials then []
  else
    match env.clock with
    | none => []
    | some clock =>
      if !clock.is_open then []
      else
        match env.config with
        | none => []
        | some config =>
          if !truthy env.prev_close then []
          else
            let prev_close := env.prev_close.getD 0
            match env.position with
            | some position =>
              let current_price := position.current_price
              let stopTriggered : Bool :=
                truthy config.sp500_stop_price && truthy env.spy_open &&
                  (let sp := calculate_dynamic_stop config.sp500_stop_price
                    env.spy_open position.avg_entry_price
                   truthy sp && decide (sp.getD 0 ≤ current_price))
              if stopTriggered then
                [⟨Side.sell, position.qty, OrderReason.stopLoss⟩]
              else if env.now_hour = 20 ∧ 58 ≤ env.now_minute then
                [⟨Side.sell, position.qty, OrderReason.eodClose⟩]
              else []
            | none =>
              if !config.spxs_trading_enabled then []
              else
                let r := check_entry_conditions env.entry_today_open prev_close
                  env.entry_latest_trade env.entry_clock
                if r.1 then [⟨Side.buy, QUANTITY, OrderReason.entry⟩]
                else []

end IntradayMonitor

namespace SmaMonitor

/-- Modelled from the spec: the MovingAverageExitMonitor (the alternate
simpler monitoring mode of spec section 4.4) is not among the files
under src/; only upro_trading.py and intraday_monitor.py are present.
sma20 is the arithmetic mean of the 20 most recent daily closes, the
closes being listed chronologically, oldest first. -/
def sma20 (daily_closes : List ℚ) : ℚ :=
  (daily_closes.reverse.take 20).sum / 20

/-- Modelled from the spec: evaluate(daily_closes, current_price) of
the MovingAverageExitMonitor.  Fewer than 20 closes yields
indeterminate (none, no action); otherwise the exit signal is
current_price < sma20.  The monitor only evaluates exits. -/
def evaluate (daily_closes : List ℚ) (current_price : ℚ) : Option Bool :=
  if daily_closes.length < 20 then none
  else some (decide (current_price < sma20 daily_closes))

end SmaMonitor

/-- Helper: the update pattern of the highest-price tracker is a max. -/
theorem ite_gt_eq_max (a b : ℚ) : (if b > a then b else a) = max a b := by
  rw [max_def]
  split_ifs with h1 h2 h2 <;> linarith

/-- Helper: the trailing-percent validation is the identity on (0, 3]. -/
theorem validate_trailing_of_mem (t : ℚ) (h0 : 0 < t) (h3 : t ≤ 3) :
    UproTrading.validate_trailing (some t) = t := by
  have h : ¬ (t ≤ 0 ∨ t > 3) := by push_neg; exact ⟨h0, h3⟩
  simp [UproTrading.validate_trailing, h]

/-- Claim C1, counterexample: in the LONG variant (upro_trading.py
line 212) the gate tests gap_pct > 1.0, not the absolute gap.  With
previous close 100 and today open 98 the gap is -2 percent, so the
absolute gap exceeds 1 percent, zero minutes have elapsed since the
session open, and yet check_entry_conditions returns
should_enter = true at current price 100. -/
theorem C1_counterexample :
    |((98 : ℚ) - 100) / 100 * 100| > 1 ∧ ((0 : ℚ) < 15) ∧
      UproTrading.check_entry_conditions (some 98) 100 (some 100)
        (some ⟨true, 0⟩) = (true, some 100) := by
  refine ⟨by norm_num, by norm_num, ?_⟩
  norm_num [UproTrading.check_entry_conditions]

/-- Claim C1 (amended): gap gating.  In the INVERSE variant
(intraday_monitor.py) any absolute gap above 1 percent blocks entry,
with the market clock open, while fewer than 15 minutes have elapsed
since the session open; in the LONG variant (upro_trading.py) only a
positive gap above 1 percent blocks.  Once at least 15 minutes have
elapsed, the direction-specific price comparison alone decides in
both variants. -/
theorem C1_gap_gating (today_open prev_close current m : ℚ)
    (hcur : current ≠ 0) :
    ((|(today_open - prev_close) / prev_close * 100| > 1 ∧ m < 15) →
      (IntradayMonitor.check_entry_conditions (some today_open) prev_close
        (some current) (some ⟨true, m⟩)).1 = false)
  ∧ (((today_open - prev_close) / prev_close * 100 > 1 ∧ m < 15) →
      (UproTrading.check_entry_conditions (some today_open) prev_close
        (some current) (some ⟨true, m⟩)).1 = false)
  ∧ (15 ≤ m →
      (UproTrading.check_entry_conditions (some today_open) prev_close
        (some current) (some ⟨true, m⟩)).1 = decide (prev_close ≤ current)
    ∧ (IntradayMonitor.check_entry_conditions (some today_open) prev_close
        (some current) (some ⟨true, m⟩)).1 = decide (current ≤ prev_close)) := by
  refine ⟨?_, ?_, ?_⟩
  · rintro ⟨hg, hm⟩
    simp [IntradayMonitor.check_entry_conditions, hcur, hg, hm]
  · rintro ⟨hg, hm⟩
    simp [UproTrading.check_entry_conditions, hcur, hg, hm]
  · intro hm
    have hm15 : ¬ (m < 15) := not_lt.mpr hm
    constructor
    · simp only [UproTrading.check_entry_conditions]
      rw [if_neg hcur]
      rcases le_or_lt prev_close current with h | h
      · simp [hm15, ge_iff_le, h]
      · simp [hm15, ge_iff_le, h, not_le.mpr h]
    · simp only [IntradayMonitor.check_entry_conditions]
      rw [if_neg hcur]
      rcases le_or_lt current prev_close with h | h
      · simp [hm15, h]
      · simp [hm15, h, not_le.mpr h]

/-- Witness for C1_gap_gating: concrete gap of +3 percent, current
price equal to previous close; both variants block at 0 minutes and
the LONG variant follows the price rule at 20 minutes. -/
theorem C1_gap_gating_witness :
    ((100 : ℚ) ≠ 0) ∧
    (IntradayMonitor.check_entry_conditions (some 103) 100 (some 100)
      (some ⟨true, 0⟩)).1 = false ∧
    (UproTrading.check_entry_conditions (some 103) 100 (some 100)
      (some ⟨true, 0⟩)).1 = false ∧
    (UproTrading.check_entry_conditions (some 103) 100 (some 100)
      (some ⟨true, 20⟩)).1 = decide ((100 : ℚ) ≤ 100) :=
  ⟨by norm_num,
   (C1_gap_gating 103 100 100 0 (by norm_num)).1 ⟨by norm_num, by norm_num⟩,
   (C1_gap_gating 103 100 100 0 (by norm_num)).2.1 ⟨by norm_num, by norm_num⟩,
   ((C1_gap_gating 103 100 100 20 (by norm_num)).2.2 (by norm_num)).1⟩

/-- Claim C5: direction symmetry.  Once the gap gate is satisfied
(absolute gap at most 1 percent, or at least 15 minutes elapsed
whenever a clock is present), the LONG variant enters exactly when
current_price is at least prev_close and the INVERSE variant, on
identical prices, exactly when current_price is at most prev_close;
the reference price in the true case is the fetched current price,
and in the false case none is returned. -/
theorem C5_direction_symmetry (today_open prev_close current : ℚ)
    (clock : Option ClockInfo) (hcur : current ≠ 0)
    (hgate : |(today_open - prev_close) / prev_close * 100| ≤ 1
      ∨ ∀ c, clock = some c → 15 ≤ c.minutesSinceOpen) :
    (UproTrading.check_entry_conditions (some today_open) prev_close
        (some current) clock
      = if prev_close ≤ current then (true, some current) else (false, none))
  ∧ (IntradayMonitor.check_entry_conditions (some today_open) prev_close
        (some current) clock
      = if current ≤ prev_close then (true, some current) else (false, none)) := by
  cases clock with
  | none =>
    constructor
    · simp only [UproTrading.check_entry_conditions]
      rw [if_neg hcur]
      rcases le_or_lt prev_close current with h | h
      · simp [ge_iff_le, h]
      · simp [ge_iff_le, h, not_le.mpr h]
    · simp only [IntradayMonitor.check_entry_conditions]
      rw [if_neg hcur]
      rcases le_or_lt current prev_close with h | h
      · simp [h]
      · simp [h, not_le.mpr h]
  | some c =>
    rcases hgate with hga | hgm
    · have h1 : ¬ ((today_open - prev_close) / prev_close * 100 > 1) := by
        have := (abs_le.mp hga).2
        exact not_lt.mpr this
      have h2 : ¬ (|(today_open - prev_close) / prev_close * 100| > 1) :=
        not_lt.mpr hga
      constructor
      · simp only [UproTrading.check_entry_conditions]
        rw [if_neg hcur]
        rcases le_or_lt prev_close current with h | h
        · simp [h1, ge_iff_le, h]
        · simp [h1, ge_iff_le, h, not_le.mpr h]
      · simp only [IntradayMonitor.check_entry_conditions]
        rw [if_neg hcur]
        rcases le_or_lt current prev_close with h | h
        · simp [h2, h]
        · simp [h2, h, not_le.mpr h]
    · have hmm : ¬ (c.minutesSinceOpen < 15) := not_lt.mpr (hgm c rfl)
      constructor
      · simp only [UproTrading.check_entry_conditions]
        rw [if_neg hcur]
        rcases le_or_lt prev_close current with h | h
        · simp [hmm, ge_iff_le, h]
        · simp [hmm, ge_iff_le, h, not_le.mpr h]
      · simp only [IntradayMonitor.check_entry_conditions]
        rw [if_neg hcur]
        rcases le_or_lt current prev_close with h | h
        · simp [hmm, h]
        · simp [hmm, h, not_le.mpr h]

/-- Witness for C5_direction_symmetry: absolute gap of 0.5 percent,
current price above previous close; the LONG variant enters, the
INVERSE variant does not. -/
theorem C5_direction_symmetry_witness :
    ((101 : ℚ) ≠ 0) ∧
    |((1005 : ℚ) / 10 - 100) / 100 * 100| ≤ 1 ∧
    UproTrading.check_entry_conditions (some (1005 / 10)) 100 (some 101)
      (some ⟨true, 0⟩) = (true, some 101) ∧
    IntradayMonitor.check_entry_conditions (some (1005 / 10)) 100 (some 101)
      (some ⟨true, 0⟩) = (false, none) := by
  have h := C5_direction_symmetry (1005 / 10) 100 101 (some ⟨true, 0⟩)
    (by norm_num) (Or.inl (by rw [abs_of_pos] <;> norm_num))
  refine ⟨by norm_num, by rw [abs_of_pos] <;> norm_num, ?_, ?_⟩
  · rw [h.1, if_pos (by norm_num)]
  · rw [h.2, if_neg (by norm_num)]

/-- Claim C4: for the INVERSE instrument with truthy (non-null,
non-zero) benchmark data, the dynamic stop is
entry * (1 + |((stop / 10) - open) / open * 100| / 100), and the
stop-loss SELL is emitted by main exactly when the current price has
risen to at least that stop (with a positive entry price the stop is
positive, hence truthy).  At benchmark stop 5900, benchmark open 585
and entry 80 the stop is 9440/117, within 0.01 of 80.68. -/
theorem C4_inverse_stop (s o qty entry current pc m : ℚ) (te ok : Bool)
    (eo et : Option ℚ) (ec : Option ClockInfo) (hh mm : ℕ)
    (hs : s ≠ 0) (ho : o ≠ 0) (hpc : pc ≠ 0) (hentry : 0 < entry) :
    IntradayMonitor.calculate_dynamic_stop (some s) (some o) entry
        = some (entry * (1 + |(s / 10 - o) / o * 100| / 100))
  ∧ (Order.mk Side.sell qty OrderReason.stopLoss ∈
        IntradayMonitor.main
          { hasCredentials := true, clock := some ⟨true, m⟩,
            config := some ⟨te, some s⟩, prev_close := some pc,
            spy_open := some o, position := some ⟨qty, entry, current⟩,
            entry_today_open := eo, entry_latest_trade := et,
            entry_clock := ec, now_hour := hh, now_minute := mm,
            order_accepted := ok }
      ↔ entry * (1 + |(s / 10 - o) / o * 100| / 100) ≤ current)
  ∧ (80 : ℚ) * (1 + |((5900 : ℚ) / 10 - 585) / 585 * 100| / 100) = 9440 / 117
  ∧ |(9440 / 117 : ℚ) - 8068 / 100| < 1 / 100 := by
  have hstop : (0 : ℚ) < entry * (1 + |(s / 10 - o) / o * 100| / 100) := by
    positivity
  refine ⟨?_, ?_, ?_, ?_⟩
  · simp [IntradayMonitor.calculate_dynamic_stop, truthy, hs, ho]
  · simp only [IntradayMonitor.main, IntradayMonitor.calculate_dynamic_stop,
      truthy, hs, ho, hpc]
    rcases le_or_lt (entry * (1 + |(s / 10 - o) / o * 100| / 100)) current with h | h
    · simp [truthy, hs, ho, hpc, hstop.ne', h]
    · by_cases heod : hh = 20 ∧ 58 ≤ mm
      · simp [truthy, hs, ho, hpc, hstop.ne', not_le.mpr h, heod, Order.mk.injEq]
      · simp [truthy, hs, ho, hpc, hstop.ne', not_le.mpr h, heod]
  · rw [abs_of_pos (by norm_num)]
    norm_num
  · rw [abs_of_pos (by norm_num)]
    norm_num

/-- Witness for C4_inverse_stop: the example of the spec with current
price 81, which has reached the stop of 9440/117. -/
theorem C4_inverse_stop_witness :
    ((5900 : ℚ) ≠ 0) ∧ ((585 : ℚ) ≠ 0) ∧ ((100 : ℚ) ≠ 0) ∧ ((0 : ℚ) < 80) ∧
    (Order.mk Side.sell 5 OrderReason.stopLoss ∈
        IntradayMonitor.main
          { hasCredentials := true, clock := some ⟨true, 0⟩,
            config := some ⟨false, some 5900⟩, prev_close := some 100,
            spy_open := some 585, position := some ⟨5, 80, 81⟩,
            entry_today_open := none, entry_latest_trade := none,
            entry_clock := none, now_hour := 18, now_minute := 0,
            order_accepted := true }
      ↔ (80 : ℚ) * (1 + |((5900 : ℚ) / 10 - 585) / 585 * 100| / 100) ≤ 81) := by
  refine ⟨by norm_num, by norm_num, by norm_num, by norm_num, ?_⟩
  exact (C4_inverse_stop 5900 585 5 80 81 100 0 false true none none none 18 0
    (by norm_num) (by norm_num) (by norm_num) (by norm_num)).2.1

/-- Claim C9: the MovingAverageExitMonitor, modelled from the spec
(its source file is not under src/).  With fewer than 20 closes the
evaluation is indeterminate (none, no action); with at least 20
closes the exit signal is exactly current_price < sma20; on 20 closes
all equal to 50 the sma20 is 50, current 49.99 signals exit and
current 50.01 does not. -/
theorem C9_sma_exit :
    (∀ (closes : List ℚ) (current : ℚ), closes.length < 20 →
      SmaMonitor.evaluate closes current = none)
  ∧ (∀ (closes : List ℚ) (current : ℚ), 20 ≤ closes.length →
      (SmaMonitor.evaluate closes current = some true ↔
        current < SmaMonitor.sma20 closes))
  ∧ SmaMonitor.sma20 (List.replicate 20 50) = 50
  ∧ SmaMonitor.evaluate (List.replicate 20 50) (4999 / 100) = some true
  ∧ SmaMonitor.evaluate (List.replicate 20 50) (5001 / 100) = some false
  ∧ SmaMonitor.evaluate (List.replicate 19 50) (4999 / 100) = none := by
  have hsma : SmaMonitor.sma20 (List.replicate 20 50) = 50 := by
    simp [SmaMonitor.sma20, List.sum_replicate]
    norm_num
  refine ⟨?_, ?_, hsma, ?_, ?_, ?_⟩
  · intro closes current h
    simp [SmaMonitor.evaluate, h]
  · intro closes current h
    have h20 : ¬ (closes.length < 20) := not_lt.mpr h
    simp [SmaMonitor.evaluate, h20]
  · have h20 : ¬ ((List.replicate 20 (50 : ℚ)).length < 20) := by simp
    unfold SmaMonitor.evaluate
    rw [if_neg h20, hsma]
    norm_num
  · have h20 : ¬ ((List.replicate 20 (50 : ℚ)).length < 20) := by simp
    unfold SmaMonitor.evaluate
    rw [if_neg h20, hsma]
    norm_num
  · have : (List.replicate 19 (50 : ℚ)).length < 20 := by simp
    simp [SmaMonitor.evaluate, this]

/-- Witness for C9_sma_exit: a three-element close list is
indeterminate, and with twenty closes of 50 the exit signal at
current price 42 is exactly 42 < sma20. -/
theorem C9_sma_exit_witness :
    (List.replicate 3 (50 : ℚ)).length < 20 ∧
    SmaMonitor.evaluate (List.replicate 3 (50 : ℚ)) 42 = none ∧
    20 ≤ (List.replicate 20 (50 : ℚ)).length ∧
    (SmaMonitor.evaluate (List.replicate 20 (50 : ℚ)) 42 = some true ↔
      (42 : ℚ) < SmaMonitor.sma20 (List.replicate 20 50)) :=
  ⟨by simp, C9_sma_exit.1 _ 42 (by simp), by simp,
   C9_sma_exit.2.1 _ 42 (by simp)⟩

/-- Claim C2: on a cycle with an open LONG position, a market clock
reporting open, a truthy previous close and truthy benchmark data, the
highest-price tracker becomes the maximum of its previous value and
the current price (the current price itself on first observation), the
effective stop is the maximum of the dynamic stop and the trailing
stop from that updated high, the stop-loss SELL is emitted exactly
when the current price is at most this effective stop, and on a
holding cycle outside the close window the new tracker value is
exactly the updated high. -/
theorem C2_long_effective_stop (s o qty entry current tp pc m : ℚ)
    (st : Option ℚ) (te ok : Bool) (eo et : Option ℚ) (ec : Option ClockInfo)
    (hh mm : ℕ)
    (hs : s ≠ 0) (ho : o ≠ 0) (hpc : pc ≠ 0) (htp0 : 0 < tp) (htp3 : tp ≤ 3) :
    (Order.mk Side.sell qty OrderReason.stopLoss ∈
        (UproTrading.main
          { hasCredentials := true, clock := some ⟨true, m⟩,
            config := some ⟨te, some s, some tp⟩, prev_close := some pc,
            spy_open := some o, position := some ⟨qty, entry, current⟩,
            entry_today_open := eo, entry_latest_trade := et, entry_clock := ec,
            now_hour := hh, now_minute := mm, order_accepted := ok } st).1
      ↔ current ≤ max (entry * (1 + ((s / 10 - o) / o * 100) / 100))
          (max (st.getD current) current * (1 - tp / 100)))
  ∧ (¬ current ≤ max (entry * (1 + ((s / 10 - o) / o * 100) / 100))
          (max (st.getD current) current * (1 - tp / 100)) →
      ¬ (hh = 20 ∧ 58 ≤ mm) →
      (UproTrading.main
          { hasCredentials := true, clock := some ⟨true, m⟩,
            config := some ⟨te, some s, some tp⟩, prev_close := some pc,
            spy_open := some o, position := some ⟨qty, entry, current⟩,
            entry_today_open := eo, entry_latest_trade := et, entry_clock := ec,
            now_hour := hh, now_minute := mm, order_accepted := ok } st).2
        = some (max (st.getD current) current)) := by
  have hmain : UproTrading.main
      { hasCredentials := true, clock := some ⟨true, m⟩,
        config := some ⟨te, some s, some tp⟩, prev_close := some pc,
        spy_open := some o, position := some ⟨qty, entry, current⟩,
        entry_today_open := eo, entry_latest_trade := et, entry_clock := ec,
        now_hour := hh, now_minute := mm, order_accepted := ok } st =
      (if current ≤ max (entry * (1 + ((s / 10 - o) / o * 100) / 100))
          (max (st.getD current) current * (1 - tp / 100)) then
        ([⟨Side.sell, qty, OrderReason.stopLoss⟩], none)
      else if hh = 20 ∧ 58 ≤ mm then
        ([⟨Side.sell, qty, OrderReason.eodClose⟩], none)
      else ([], some (max (st.getD current) current))) := by
    simp [UproTrading.main, UproTrading.calculate_dynamic_stop, truthy, hs, ho,
      hpc, validate_trailing_of_mem tp htp0 htp3, ite_gt_eq_max]
  constructor
  · rw [hmain]
    rcases le_or_lt current (max (entry * (1 + ((s / 10 - o) / o * 100) / 100))
        (max (st.getD current) current * (1 - tp / 100))) with h | h
    · rw [if_pos h]
      simpa using h
    · have h' := not_le.mpr h
      rw [if_neg h']
      by_cases heod : hh = 20 ∧ 58 ≤ mm
      · rw [if_pos heod]
        simpa using h'
      · rw [if_neg heod]
        simpa using h'
  · intro h hno
    rw [hmain, if_neg h, if_neg hno]

/-- Witness for C2_long_effective_stop: the spec example with a
dynamic stop near 80.68 and current price 79, which triggers the
stop-loss sell. -/
theorem C2_long_effective_stop_witness :
    ((5900 : ℚ) ≠ 0) ∧ ((585 : ℚ) ≠ 0) ∧ ((100 : ℚ) ≠ 0) ∧
    ((0 : ℚ) < 3) ∧ ((3 : ℚ) ≤ 3) ∧
    (Order.mk Side.sell 5 OrderReason.stopLoss ∈
        (UproTrading.main
          { hasCredentials := true, clock := some ⟨true, 0⟩,
            config := some ⟨false, some 5900, some 3⟩, prev_close := some 100,
            spy_open := some 585, position := some ⟨5, 80, 79⟩,
            entry_today_open := none, entry_latest_trade := none,
            entry_clock := none, now_hour := 18, now_minute := 0,
            order_accepted := true } none).1
      ↔ (79 : ℚ) ≤ max ((80 : ℚ) * (1 + (((5900 : ℚ) / 10 - 585) / 585 * 100) / 100))
          (max ((none : Option ℚ).getD 79) 79 * (1 - (3 : ℚ) / 100))) := by
  refine ⟨by norm_num, by norm_num, by norm_num, by norm_num, by norm_num, ?_⟩
  exact (C2_long_effective_stop 5900 585 5 80 79 3 100 0 none false true
    none none none 18 0 (by norm_num) (by norm_num) (by norm_num)
    (by norm_num) (by norm_num)).1

/-- Claim C3, counterexample: LONG variant with no benchmark data
(sp500_stop_price null), entry price 100, first observation at current
price 90, trailing percent 2.5.  The pure trailing stop from the
highest price seen is 90 * 0.975 = 87.75 and the current price 90 is
above it, yet the cycle emits a stop-loss SELL, because the effective
stop is the entry-based fallback 97.5, not the pure trailing stop. -/
theorem C3_counterexample :
    (UproTrading.main
       { hasCredentials := true, clock := some ⟨true, 0⟩,
         config := some ⟨false, none, some (5 / 2)⟩, prev_close := some 100,
         spy_open := none, position := some ⟨5, 100, 90⟩,
         entry_today_open := none, entry_latest_trade := none,
         entry_clock := none, now_hour := 18, now_minute := 0,
         order_accepted := true } none).1
      = [⟨Side.sell, 5, OrderReason.stopLoss⟩]
  ∧ ¬ ((90 : ℚ) ≤ 90 * (1 - (5 / 2) / 100)) := by
  constructor
  · norm_num [UproTrading.main, UproTrading.calculate_dynamic_stop,
      UproTrading.validate_trailing, truthy]
  · norm_num

/-- Helper: every UPRO cycle result has one of three shapes: a single
sell order with deleted tracker, a single buy order with unchanged
tracker, or no orders. -/
theorem upro_main_shape (env : UproTrading.Env) (st : Option ℚ) :
    (∃ q r, UproTrading.main env st = ([⟨Side.sell, q, r⟩], none)) ∨
    UproTrading.main env st
      = ([⟨Side.buy, UproTrading.QUANTITY, OrderReason.entry⟩], st) ∨
    (UproTrading.main env st).1 = [] := by
  unfold UproTrading.main
  repeat' split
  all_goals try dsimp only
  all_goals repeat' split
  all_goals first
    | (left; exact ⟨_, _, rfl⟩)
    | (right; left; rfl)
    | (right; right; rfl)

/-- Helper: every SPXS cycle result is a single sell order, a single
buy order, or no orders. -/
theorem spxs_main_shape (env : IntradayMonitor.Env) :
    (∃ q r, IntradayMonitor.main env = [⟨Side.sell, q, r⟩]) ∨
    IntradayMonitor.main env
      = [⟨Side.buy, IntradayMonitor.QUANTITY, OrderReason.entry⟩] ∨
    IntradayMonitor.main env = [] := by
  unfold IntradayMonitor.main
  repeat' split
  all_goals try dsimp only
  all_goals repeat' split
  all_goals first
    | (left; exact ⟨_, _, rfl⟩)
    | (right; left; rfl)
    | (right; right; rfl)

/-- Claim C3 (amended): when benchmark data is unavailable (the
benchmark stop level is null), the LONG variant's dynamic branch falls
back to a stop computed from the ENTRY price, entry * (1 - tp / 100),
and the effective stop applied is the maximum of that entry-based
fallback and the trailing stop highest * (1 - tp / 100) — equal to the
pure trailing stop only when the tracked high is at least the entry
price; the INVERSE variant applies no stop at all in this case, and
only the end-of-day flatten can emit a sell. -/
theorem C3_trailing_fallback (so : Option ℚ) (qty entry current tp pc m : ℚ)
    (st : Option ℚ) (te ok : Bool) (eo et : Option ℚ) (ec : Option ClockInfo)
    (hh mm : ℕ)
    (so2 : Option ℚ) (qty2 entry2 current2 pc2 m2 : ℚ) (te2 ok2 : Bool)
    (eo2 et2 : Option ℚ) (ec2 : Option ClockInfo) (hh2 mm2 : ℕ)
    (hpc : pc ≠ 0) (htp0 : 0 < tp) (htp3 : tp ≤ 3) (hpc2 : pc2 ≠ 0) :
    (Order.mk Side.sell qty OrderReason.stopLoss ∈
        (UproTrading.main
          { hasCredentials := true, clock := some ⟨true, m⟩,
            config := some ⟨te, none, some tp⟩, prev_close := some pc,
            spy_open := so, position := some ⟨qty, entry, current⟩,
            entry_today_open := eo, entry_latest_trade := et, entry_clock := ec,
            now_hour := hh, now_minute := mm, order_accepted := ok } st).1
      ↔ current ≤ max (entry * (1 - tp / 100))
          (max (st.getD current) current * (1 - tp / 100)))
  ∧ (IntradayMonitor.main
        { hasCredentials := true, clock := some ⟨true, m2⟩,
          config := some ⟨te2, none⟩, prev_close := some pc2,
          spy_open := so2, position := some ⟨qty2, entry2, current2⟩,
          entry_today_open := eo2, entry_latest_trade := et2,
          entry_clock := ec2, now_hour := hh2, now_minute := mm2,
          order_accepted := ok2 }
      = if hh2 = 20 ∧ 58 ≤ mm2 then [⟨Side.sell, qty2, OrderReason.eodClose⟩]
        else []) := by
  constructor
  · have hmain : UproTrading.main
        { hasCredentials := true, clock := some ⟨true, m⟩,
          config := some ⟨te, none, some tp⟩, prev_close := some pc,
          spy_open := so, position := some ⟨qty, entry, current⟩,
          entry_today_open := eo, entry_latest_trade := et, entry_clock := ec,
          now_hour := hh, now_minute := mm, order_accepted := ok } st =
        (if current ≤ max (entry * (1 - tp / 100))
            (max (st.getD current) current * (1 - tp / 100)) then
          ([⟨Side.sell, qty, OrderReason.stopLoss⟩], none)
        else if hh = 20 ∧ 58 ≤ mm then
          ([⟨Side.sell, qty, OrderReason.eodClose⟩], none)
        else ([], some (max (st.getD current) current))) := by
      simp [UproTrading.main, UproTrading.calculate_dynamic_stop, truthy, hpc,
        validate_trailing_of_mem tp htp0 htp3, ite_gt_eq_max]
    rw [hmain]
    rcases le_or_lt current (max (entry * (1 - tp / 100))
        (max (st.getD current) current * (1 - tp / 100))) with h | h
    · rw [if_pos h]
      simpa using h
    · have h' := not_le.mpr h
      rw [if_neg h']
      by_cases heod : hh = 20 ∧ 58 ≤ mm
      · rw [if_pos heod]
        simpa using h'
      · rw [if_neg heod]
        simpa using h'
  · simp [IntradayMonitor.main, truthy, hpc2]

/-- Witness for C3_trailing_fallback: no benchmark data, entry 100,
current 90 on first observation, trailing percent 2.5; the sell is
emitted because 90 is at most the max of 97.5 and 87.75, and the
INVERSE variant away from the close window emits nothing. -/
theorem C3_trailing_fallback_witness :
    ((100 : ℚ) ≠ 0) ∧ ((0 : ℚ) < 5 / 2) ∧ ((5 / 2 : ℚ) ≤ 3) ∧
    (Order.mk Side.sell 5 OrderReason.stopLoss ∈
        (UproTrading.main
          { hasCredentials := true, clock := some ⟨true, 0⟩,
            config := some ⟨false, none, some (5 / 2)⟩, prev_close := some 100,
            spy_open := none, position := some ⟨5, 100, 90⟩,
            entry_today_open := none, entry_latest_trade := none,
            entry_clock := none, now_hour := 18, now_minute := 0,
            order_accepted := true } none).1
      ↔ (90 : ℚ) ≤ max ((100 : ℚ) * (1 - (5 / 2) / 100))
          (max ((none : Option ℚ).getD 90) 90 * (1 - (5 / 2) / 100))) ∧
    IntradayMonitor.main
        { hasCredentials := true, clock := some ⟨true, 0⟩,
          config := some ⟨false, none⟩, prev_close := some 100,
          spy_open := none, position := some ⟨5, 80, 90⟩,
          entry_today_open := none, entry_latest_trade := none,
          entry_clock := none, now_hour := 18, now_minute := 0,
          order_accepted := true }
      = if (18 : ℕ) = 20 ∧ 58 ≤ (0 : ℕ)
        then [⟨Side.sell, 5, OrderReason.eodClose⟩] else [] := by
  have h := C3_trailing_fallback none 5 100 90 (5 / 2) 100 0 none false true
    none none none 18 0 none 5 80 90 100 0 false true none none none 18 0
    (by norm_num) (by norm_num) (by norm_num) (by norm_num)
  exact ⟨by norm_num, by norm_num, by norm_num, h.1, h.2⟩

/-- Claim C6: with an open position and the wall clock inside the
final two minutes of the session (hour 20, minute at least 58 and
below 60), both variants emit a SELL of the full position quantity
whatever the stop inputs are, and the UPRO variant discards the
highest-price tracker (new state none). -/
theorem C6_eod_flatten (sp so tpc : Option ℚ) (qty entry current pc m : ℚ)
    (st : Option ℚ) (te ok : Bool) (eo et : Option ℚ) (ec : Option ClockInfo)
    (mm : ℕ)
    (sp2 so2 : Option ℚ) (qty2 entry2 current2 pc2 m2 : ℚ) (te2 ok2 : Bool)
    (eo2 et2 : Option ℚ) (ec2 : Option ClockInfo) (mm2 : ℕ)
    (hpc : pc ≠ 0) (hmm : 58 ≤ mm) (hmm60 : mm < 60)
    (hpc2 : pc2 ≠ 0) (hmm2 : 58 ≤ mm2) (hmm260 : mm2 < 60) :
    (∃ r, UproTrading.main
        { hasCredentials := true, clock := some ⟨true, m⟩,
          config := some ⟨te, sp, tpc⟩, prev_close := some pc,
          spy_open := so, position := some ⟨qty, entry, current⟩,
          entry_today_open := eo, entry_latest_trade := et, entry_clock := ec,
          now_hour := 20, now_minute := mm, order_accepted := ok } st
        = ([⟨Side.sell, qty, r⟩], none))
  ∧ (∃ r, IntradayMonitor.main
        { hasCredentials := true, clock := some ⟨true, m2⟩,
          config := some ⟨te2, sp2⟩, prev_close := some pc2,
          spy_open := so2, position := some ⟨qty2, entry2, current2⟩,
          entry_today_open := eo2, entry_latest_trade := et2,
          entry_clock := ec2, now_hour := 20, now_minute := mm2,
          order_accepted := ok2 }
        = [⟨Side.sell, qty2, r⟩]) := by
  constructor
  · have hmain : UproTrading.main
        { hasCredentials := true, clock := some ⟨true, m⟩,
          config := some ⟨te, sp, tpc⟩, prev_close := some pc,
          spy_open := so, position := some ⟨qty, entry, current⟩,
          entry_today_open := eo, entry_latest_trade := et, entry_clock := ec,
          now_hour := 20, now_minute := mm, order_accepted := ok } st =
        (if current ≤ max (UproTrading.calculate_dynamic_stop sp so entry
              (UproTrading.validate_trailing tpc))
            (max (st.getD current) current
              * (1 - UproTrading.validate_trailing tpc / 100)) then
          ([⟨Side.sell, qty, OrderReason.stopLoss⟩], none)
        else if (20 : ℕ) = 20 ∧ 58 ≤ mm then
          ([⟨Side.sell, qty, OrderReason.eodClose⟩], none)
        else ([], some (max (st.getD current) current))) := by
      simp [UproTrading.main, truthy, hpc, ite_gt_eq_max]
    by_cases hstop : current ≤ max (UproTrading.calculate_dynamic_stop sp so
        entry (UproTrading.validate_trailing tpc))
        (max (st.getD current) current
          * (1 - UproTrading.validate_trailing tpc / 100))
    · exact ⟨OrderReason.stopLoss, by rw [hmain, if_pos hstop]⟩
    · exact ⟨OrderReason.eodClose, by rw [hmain, if_neg hstop,
        if_pos ⟨rfl, hmm⟩]⟩
  · have hmain2 : IntradayMonitor.main
        { hasCredentials := true, clock := some ⟨true, m2⟩,
          config := some ⟨te2, sp2⟩, prev_close := some pc2,
          spy_open := so2, position := some ⟨qty2, entry2, current2⟩,
          entry_today_open := eo2, entry_latest_trade := et2,
          entry_clock := ec2, now_hour := 20, now_minute := mm2,
          order_accepted := ok2 } =
        (if (truthy sp2 && truthy so2 &&
            (truthy (IntradayMonitor.calculate_dynamic_stop sp2 so2 entry2) &&
             decide ((IntradayMonitor.calculate_dynamic_stop sp2 so2
               entry2).getD 0 ≤ current2))) = true then
          [⟨Side.sell, qty2, OrderReason.stopLoss⟩]
        else if (20 : ℕ) = 20 ∧ 58 ≤ mm2 then
          [⟨Side.sell, qty2, OrderReason.eodClose⟩]
        else []) := by
      simp [IntradayMonitor.main, truthy, hpc2]
    by_cases hstop : (truthy sp2 && truthy so2 &&
        (truthy (IntradayMonitor.calculate_dynamic_stop sp2 so2 entry2) &&
         decide ((IntradayMonitor.calculate_dynamic_stop sp2 so2
           entry2).getD 0 ≤ current2))) = true
    · exact ⟨OrderReason.stopLoss, by rw [hmain2, if_pos hstop]⟩
    · exact ⟨OrderReason.eodClose, by rw [hmain2, if_neg hstop,
        if_pos ⟨rfl, hmm2⟩]⟩

/-- Witness for C6_eod_flatten at 20:58 with concrete positions. -/
theorem C6_eod_flatten_witness :
    ((100 : ℚ) ≠ 0) ∧ (58 ≤ 58) ∧ (58 < 60) ∧
    (∃ r, UproTrading.main
        { hasCredentials := true, clock := some ⟨true, 120⟩,
          config := some ⟨false, none, none⟩, prev_close := some 100,
          spy_open := none, position := some ⟨5, 80, 200⟩,
          entry_today_open := none, entry_latest_trade := none,
          entry_clock := none, now_hour := 20, now_minute := 58,
          order_accepted := true } none
        = ([⟨Side.sell, 5, r⟩], none))
  ∧ (∃ r, IntradayMonitor.main
        { hasCredentials := true, clock := some ⟨true, 120⟩,
          config := some ⟨false, none⟩, prev_close := some 100,
          spy_open := none, position := some ⟨5, 80, 200⟩,
          entry_today_open := none, entry_latest_trade := none,
          entry_clock := none, now_hour := 20, now_minute := 58,
          order_accepted := true }
        = [⟨Side.sell, 5, r⟩]) := by
  have h := C6_eod_flatten none none none 5 80 200 100 120 none false true
    none none none 58 none none 5 80 200 100 120 false true none none none 58
    (by norm_num) (by norm_num) (by norm_num)
    (by norm_num) (by norm_num) (by norm_num)
  exact ⟨by norm_num, by norm_num, by norm_num, h.1, h.2⟩

/-- Claim C7, counterexample: a stop-triggered cycle in which the sell
order placement fails (order_accepted is false, a BrokerError) still
deletes the highest-price tracker entry: the state passed in as
some 100 comes back as none, so local state is not left unchanged and
the tracker is not retained when the sell order fails. -/
theorem C7_counterexample :
    UproTrading.main
       { hasCredentials := true, clock := some ⟨true, 0⟩,
         config := some ⟨false, none, some 3⟩, prev_close := some 100,
         spy_open := none, position := some ⟨5, 100, 90⟩,
         entry_today_open := none, entry_latest_trade := none,
         entry_clock := none, now_hour := 18, now_minute := 0,
         order_accepted := false } (some 100)
      = ([⟨Side.sell, 5, OrderReason.stopLoss⟩], none) := by
  norm_num [UproTrading.main, UproTrading.calculate_dynamic_stop,
    UproTrading.validate_trailing, truthy]

/-- Claim C7 (amended): the broker response to an order placement is
ignored by the cycle — the result is identical whether the order is
accepted or not — and the highest-price tracker entry is deleted on
every cycle that emits a sell order, successful or not; it is retained
unchanged on a buy, and a failed buy likewise leaves state unchanged. -/
theorem C7_broker_error_state :
    (∀ (env : UproTrading.Env) (st : Option ℚ),
      UproTrading.main { env with order_accepted := false } st
        = UproTrading.main { env with order_accepted := true } st)
  ∧ (∀ (env : UproTrading.Env) (st : Option ℚ) (o : Order),
      o ∈ (UproTrading.main env st).1 → o.side = Side.sell →
      (UproTrading.main env st).2 = none)
  ∧ (∀ (env : UproTrading.Env) (st : Option ℚ) (o : Order),
      o ∈ (UproTrading.main env st).1 → o.side = Side.buy →
      (UproTrading.main env st).2 = st) := by
  refine ⟨?_, ?_, ?_⟩
  · intro env st
    cases env
    rfl
  · intro env st o ho hside
    rcases upro_main_shape env st with ⟨q, r, heq⟩ | heq | heq
    · rw [heq]
    · rw [heq] at ho
      simp at ho
      rw [ho] at hside
      simp at hside
    · rw [heq] at ho
      simp at ho
  · intro env st o ho hside
    rcases upro_main_shape env st with ⟨q, r, heq⟩ | heq | heq
    · rw [heq] at ho
      simp at ho
      rw [ho] at hside
      simp at hside
    · rw [heq]
    · rw [heq] at ho
      simp at ho

/-- Witness for C7_broker_error_state: the same failed-sell cycle as
the counterexample; any sell order in the result forces the tracker
entry to none. -/
theorem C7_broker_error_state_witness :
    (Order.mk Side.sell 5 OrderReason.stopLoss ∈
      (UproTrading.main
        { hasCredentials := true, clock := some ⟨true, 0⟩,
          config := some ⟨false, none, some 3⟩, prev_close := some 100,
          spy_open := none, position := some ⟨5, 100, 90⟩,
          entry_today_open := none, entry_latest_trade := none,
          entry_clock := none, now_hour := 18, now_minute := 0,
          order_accepted := false } (some 100)).1) ∧
    (Order.mk Side.sell 5 OrderReason.stopLoss).side = Side.sell ∧
    (UproTrading.main
        { hasCredentials := true, clock := some ⟨true, 0⟩,
          config := some ⟨false, none, some 3⟩, prev_close := some 100,
          spy_open := none, position := some ⟨5, 100, 90⟩,
          entry_today_open := none, entry_latest_trade := none,
          entry_clock := none, now_hour := 18, now_minute := 0,
          order_accepted := false } (some 100)).2 = none := by
  have hmem : Order.mk Side.sell 5 OrderReason.stopLoss ∈
      (UproTrading.main
        { hasCredentials := true, clock := some ⟨true, 0⟩,
          config := some ⟨false, none, some 3⟩, prev_close := some 100,
          spy_open := none, position := some ⟨5, 100, 90⟩,
          entry_today_open := none, entry_latest_trade := none,
          entry_clock := none, now_hour := 18, now_minute := 0,
          order_accepted := false } (some 100)).1 := by
    norm_num [UproTrading.main, UproTrading.calculate_dynamic_stop,
      UproTrading.validate_trailing, truthy]
  exact ⟨hmem, rfl, C7_broker_error_state.2.1 _ (some 100) _ hmem rfl⟩

/-- Claim C8: a market clock reporting a closed session makes the
whole cycle a no-op in both variants: no orders and (in the UPRO
variant) an unchanged highest-price tracker, regardless of every
other input. -/
theorem C8_market_closed (env : UproTrading.Env) (env2 : IntradayMonitor.Env)
    (st : Option ℚ) (c c2 : ClockInfo)
    (h1 : env.clock = some c) (h2 : c.is_open = false)
    (h3 : env2.clock = some c2) (h4 : c2.is_open = false) :
    UproTrading.main env st = ([], st) ∧ IntradayMonitor.main env2 = [] := by
  constructor
  · unfold UproTrading.main
    rw [h1]
    cases hc : env.hasCredentials <;> simp [hc, h2]
  · unfold IntradayMonitor.main
    rw [h3]
    cases hc : env2.hasCredentials <;> simp [hc, h4]

/-- Witness for C8_market_closed at a concrete closed-session cycle
with an open position and a tracked high of 7. -/
theorem C8_market_closed_witness :
    UproTrading.main
        { hasCredentials := true, clock := some ⟨false, 0⟩,
          config := some ⟨true, some 5900, some 3⟩, prev_close := some 100,
          spy_open := some 585, position := some ⟨5, 80, 1⟩,
          entry_today_open := none, entry_latest_trade := none,
          entry_clock := none, now_hour := 20, now_minute := 59,
          order_accepted := true } (some 7) = ([], some 7)
  ∧ IntradayMonitor.main
        { hasCredentials := true, clock := some ⟨false, 0⟩,
          config := some ⟨true, some 5900⟩, prev_close := some 100,
          spy_open := some 585, position := some ⟨5, 80, 1000⟩,
          entry_today_open := none, entry_latest_trade := none,
          entry_clock := none, now_hour := 20, now_minute := 59,
          order_accepted := true } = [] :=
  C8_market_closed _ _ (some 7) ⟨false, 0⟩ ⟨false, 0⟩ rfl rfl rfl rfl

/-- Claim C10: one invocation of either decision cycle places at most
one market order. -/
theorem C10_single_order (env : UproTrading.Env) (st : Option ℚ)
    (env2 : IntradayMonitor.Env) :
    (UproTrading.main env st).1.length ≤ 1 ∧
    (IntradayMonitor.main env2).length ≤ 1 := by
  constructor
  · rcases upro_main_shape env st with ⟨q, r, heq⟩ | heq | heq <;>
      rw [heq] <;> simp
  · rcases spxs_main_shape env2 with ⟨q, r, heq⟩ | heq | heq <;>
      rw [heq] <;> simp
